import Mathlib

/-!
Shallow embedding of the dtest dependency-aware test engine (src/test.py and
src/dtest/exceptions.py) and proofs about its readiness, propagation, and
execution operations.

The state constants (`dtest/constants.py`) and the phase-outcome recorder
(`dtest/result.py`) are not part of the sources; where their behavior is
needed it is modelled from the spec, and the corresponding definitions say so
in their doc comments.  Everything else is translated directly from
src/test.py.
-/

namespace DtestModel

/-- Node states.  In the Python code a node's `_state` starts as `None`
(UNSTARTED in the spec) and is later assigned one of the constants from
`dtest/constants.py`; the constants module is absent from the sources, so the
states are modelled as the distinct atoms the spec lists: RUNNING is
transient, the remaining five are terminal, and UNSTARTED is represented by
`Option.none` below (matching `_state = None`). -/
inductive St
  | RUNNING
  | OK
  | FAIL
  | ERROR
  | DEPFAIL
  | SKIPPED
deriving DecidableEq, BEq, Repr

/-- `dep._state == FAIL or dep._state == ERROR or dep._state == DEPFAIL`,
the failure test used by both `_depcheck` implementations. -/
def failedState (s : Option St) : Bool :=
  s == some St.FAIL || s == some St.ERROR || s == some St.DEPFAIL

/-- A state that is neither `None` (unstarted) nor RUNNING, i.e. one of the
five terminal states OK, FAIL, ERROR, DEPFAIL, SKIPPED. -/
def terminalState (s : Option St) : Bool :=
  !(s == none) && !(s == some St.RUNNING)

/-- One `DTestBase` object: its variant (`DTest` vs `DTestFixture`), its
`_deps` and `_revdeps` edge sets (node identifiers), its `_partner`
(fixtures only) and its `_state`.  Edge sets are kept as lists of node ids;
the identifiers play the role of Python object identity. -/
structure Node where
  isFixture : Bool := false
  deps : List Nat := []
  revdeps : List Nat := []
  partner : Option Nat := none
  state : Option St := none
deriving DecidableEq, Repr

/-- The graph of nodes (indexed by identifier) plus the log of invocations of
the externally supplied `notify` callback, each recorded as the
`(node, state)` pair it was called with. -/
structure World where
  nodes : Nat → Node
  log : List (Nat × St)

/-- `DTestBase._transition(state, notify)`: issue a notification when a
callback was supplied (`notify = true`), the receiver is a `DTest` (not a
fixture) and the state is not RUNNING; then assign the new state.  There is
no guard of any kind on the current state. -/
def transition (w : World) (i : Nat) (s : St) (notify : Bool) : World :=
  { nodes := fun j => if j = i then { w.nodes i with state := some s } else w.nodes j,
    log := if notify && !(w.nodes i).isFixture && !(s == St.RUNNING)
           then w.log ++ [(i, s)] else w.log }

/-- The loop body of `DTest._depcheck`: walk the dependency list; on the
first dependency whose state is FAIL/ERROR/DEPFAIL transition self to
DEPFAIL and return False; on the first SKIPPED dependency transition self to
SKIPPED and return False; on the first dependency whose state is not OK
return False without transitioning; if the walk completes, return True. -/
def depcheckLoop (w : World) (i : Nat) (notify : Bool) : List Nat → World × Bool
  | [] => (w, true)
  | d :: rest =>
    if failedState (w.nodes d).state then (transition w i St.DEPFAIL notify, false)
    else if (w.nodes d).state = some St.SKIPPED then (transition w i St.SKIPPED notify, false)
    else if (w.nodes d).state ≠ some St.OK then (w, false)
    else depcheckLoop w i notify rest

/-- `DTest._depcheck(notify)`: all dependencies must be OK. -/
def depcheckTest (w : World) (i : Nat) (notify : Bool) : World × Bool :=
  depcheckLoop w i notify (w.nodes i).deps

/-- The dependency loop of `DTestFixture._depcheck`: other dependencies must
not be un-run (`_state is None`) or RUNNING; any terminal state is
acceptable. -/
def fixtureDepLoop (w : World) : List Nat → Bool
  | [] => true
  | d :: rest =>
    if (w.nodes d).state = none ∨ (w.nodes d).state = some St.RUNNING then false
    else fixtureDepLoop w rest

/-- `DTestFixture._depcheck(notify)`: if the partner failed (FAIL, ERROR or
DEPFAIL) transition to DEPFAIL; if the partner was SKIPPED transition to
SKIPPED; otherwise every dependency just has to be in some terminal state
before the fixture may run. -/
def depcheckFixture (w : World) (i : Nat) (notify : Bool) : World × Bool :=
  match (w.nodes i).partner with
  | some p =>
    if failedState (w.nodes p).state then (transition w i St.DEPFAIL notify, false)
    else if (w.nodes p).state = some St.SKIPPED then (transition w i St.SKIPPED notify, false)
    else (w, fixtureDepLoop w (w.nodes i).deps)
  | none => (w, fixtureDepLoop w (w.nodes i).deps)

/-- A Python runtime error the engine can raise while an operation runs. -/
inductive PyError
  | nameError
  | attributeError
deriving DecidableEq, Repr

/-- The guard loop of `DTestFixture._skipped` (test.py:300-302): for each
dependency evaluate `dep != self._partner and dep._state != SKIPPED`.  When
`_partner` is None the comparison calls `DTestBase.__ne__(dep, None)`
(test.py:127-129), whose body `self._test is not other._test` evaluates
`None._test` and raises AttributeError — before any dependency state is
read.  With a partner present the comparison is object identity on the
wrapped tests (modelled as identifier inequality, short-circuiting the
`and`); the first non-partner dependency that is not SKIPPED makes the
method return early (guard false, no transition), and if the loop completes
the guard passes. -/
def fixtureSkipGuardLoop (w : World) (po : Option Nat) : List Nat → Except PyError Bool
  | [] => Except.ok true
  | d :: rest =>
    match po with
    | none => Except.error PyError.attributeError
    | some p =>
      if ¬ d = p ∧ ¬ (w.nodes d).state = some St.SKIPPED then Except.ok false
      else fixtureSkipGuardLoop w po rest

/-- The guard of `DTestFixture._skipped` applied to a node's own partner and
dependency list. -/
def fixtureSkipGuard (w : World) (i : Nat) : Except PyError Bool :=
  fixtureSkipGuardLoop w (w.nodes i).partner (w.nodes i).deps

/-- The guard of `DTestFixture._notify_skipped`: every entry of the direct
`_revdeps` set (no transitive traversal) must already be SKIPPED.  Only
states are compared here, so no error can arise. -/
def allDependentsSkipped (w : World) (i : Nat) : Bool :=
  (w.nodes i).revdeps.all fun r => (w.nodes r).state == some St.SKIPPED

mutual

/-- `DTestBase._skipped(notify)`: if `_state is None`, transition to SKIPPED,
then call `_skipped` on every entry of `_revdeps` (dynamic dispatch: the
fixture override for fixtures) and `_notify_skipped` on every entry of
`_deps`.  Otherwise do nothing.  A raised AttributeError propagates
immediately — the remaining loop entries are not invoked — carrying the
graph as already mutated (`Except.error (e, w)` is the raise with heap `w`).
`fuel` bounds the recursion depth; every recursive call in the Python code
consumes one unit. -/
def skippedBase : Nat → World → Nat → Bool → Except (PyError × World) World
  | 0, w, _, _ => Except.ok w
  | fuel + 1, w, i, notify =>
    if (w.nodes i).state = none then
      let n := w.nodes i
      let w1 := transition w i St.SKIPPED notify
      Except.bind
        (n.revdeps.foldl (fun a j => Except.bind a fun b => skippedDispatch fuel b j notify)
          (Except.ok w1))
        (fun b =>
          n.deps.foldl (fun a j => Except.bind a fun c => notifySkippedDispatch fuel c j notify)
            (Except.ok b))
    else Except.ok w

/-- Dynamic dispatch of `_skipped`: `DTestFixture._skipped` first runs its
dependency guard — which raises AttributeError for a partner-less fixture
with dependencies, returns without change when some non-partner dependency
is not yet SKIPPED, and otherwise falls through to the superclass method;
`DTest` inherits `DTestBase._skipped` unchanged. -/
def skippedDispatch : Nat → World → Nat → Bool → Except (PyError × World) World
  | 0, w, _, _ => Except.ok w
  | fuel + 1, w, i, notify =>
    if (w.nodes i).isFixture then
      match fixtureSkipGuard w i with
      | Except.error e => Except.error (e, w)
      | Except.ok true => skippedBase fuel w i notify
      | Except.ok false => Except.ok w
    else skippedBase fuel w i notify

/-- Dynamic dispatch of `_notify_skipped`: a plain test ignores it; a fixture
checks that every direct dependent is SKIPPED and then invokes the
superclass `_skipped` (bypassing the fixture-specific dependency guard). -/
def notifySkippedDispatch : Nat → World → Nat → Bool → Except (PyError × World) World
  | 0, w, _, _ => Except.ok w
  | fuel + 1, w, i, notify =>
    if (w.nodes i).isFixture then
      if allDependentsSkipped w i then skippedBase fuel w i notify else Except.ok w
    else Except.ok w

end

/-! ## Execution protocol (`DTestBase.__call__`) -/

/-- Outcome of one execution phase.  Modelled from the spec: the recorder
module `dtest/result.py` is absent from the sources; per §4.1 a phase
completes as SUCCESS, reports an assertion-style failure as
ASSERTION_FAILURE, or any other propagating fault as UNEXPECTED_ERROR. -/
inductive PhaseOutcome
  | SUCCESS
  | ASSERTION_FAILURE
  | UNEXPECTED_ERROR
deriving DecidableEq, Repr

/-- The three phase markers PRE, TEST, POST passed to
`self._result.accumulate(...)` in `__call__`. -/
inductive Phase
  | PRE
  | TEST
  | POST
deriving DecidableEq, Repr

/-- Modelled from the spec: `DTestResult._state()` of the absent
`dtest/result.py` — per §4.1, if any recorded outcome is UNEXPECTED_ERROR
the verdict is ERROR; else if any is ASSERTION_FAILURE it is FAIL; else it
is OK. -/
def resultState (outcomes : List PhaseOutcome) : St :=
  if PhaseOutcome.UNEXPECTED_ERROR ∈ outcomes then St.ERROR
  else if PhaseOutcome.ASSERTION_FAILURE ∈ outcomes then St.FAIL
  else St.OK

/-- Everything one call of `DTestBase.__call__` does to the node: the
sequence of states assigned by `_transition`, the notification-callback
invocations (the state each was called with), the phase boundaries entered,
and the state the node is left in. -/
structure RunResult where
  transitions : List St
  log : List St
  phasesRun : List Phase
  finalState : Option St
deriving DecidableEq, Repr

/-- A state counted as terminal: any of the five non-RUNNING states. -/
def terminalSt (s : St) : Bool := !(s == St.RUNNING)

/-- `DTestBase.__call__`: extract the `_notify` callback, transition to
RUNNING (with no callback passed, so never notified), run the `pre` hook
inside a PRE boundary when defined, the body inside a TEST boundary, the
`post` hook inside a POST boundary when defined (the boundaries swallow the
phase's fault — modelled from the spec, the recorder being absent — so a
fault in an earlier phase does not prevent later phases), then transition to
`self._result._state()` passing the callback.  A notification is issued only
for a `DTest` (not a fixture) and only for a non-RUNNING state, per
`_transition`.  Each hook's behavior is summarised by the phase outcome it
would record. -/
def runNode (isFixture notifySupplied : Bool) (pre : Option PhaseOutcome)
    (body : PhaseOutcome) (post : Option PhaseOutcome) : RunResult :=
  let outcomes := pre.toList ++ [body] ++ post.toList
  let verdict := resultState outcomes
  { transitions := [St.RUNNING, verdict],
    log := if notifySupplied && !isFixture && !(verdict == St.RUNNING) then [verdict] else [],
    phasesRun := (if pre.isSome then [Phase.PRE] else []) ++ [Phase.TEST] ++
                 (if post.isSome then [Phase.POST] else []),
    finalState := some verdict }

/-! ## Node construction (`DTestBase.__new__`) -/

/-- The framework exception from src/dtest/exceptions.py, raised by
`DTestBase.__new__` when the wrapped object is not a callable (the error the
spec names InvalidTestDefinition). -/
inductive DTestException
  | notCallable
deriving DecidableEq, Repr

/-- A candidate unit of work handed to `DTestBase.__new__`: its identity and
whether it is a plain callable, a class method, or a static method. -/
structure TestKey where
  ident : Nat
  callable : Bool
  classmethod : Bool
  staticmethod : Bool
deriving DecidableEq, Repr

/-- The possible arguments of `DTestBase.__new__(cls, test)`: `None`, an
object that is already a `DTestBase` instance, or a raw unit of work. -/
inductive NewInput
  | noneInput
  | node (i : Nat)
  | key (k : TestKey)

/-- The `DTestBase._tests` identity cache, mapping a unit of work to the
identifier of its singleton node. -/
def Registry := List (TestKey × Nat)

/-- Lookup in the identity cache. -/
def regFind (k : TestKey) : Registry → Option Nat
  | [] => none
  | (k2, i) :: rest => if k2 = k then some i else regFind k rest

/-- `DTestBase.__new__`: return `None` for `None`; return an existing
`DTestBase` unchanged; raise `DTestException` if the unit of work is neither
callable nor a class method nor a static method — before the cache is
consulted or extended; return the cached node when one exists; otherwise
construct a fresh node and record it in the cache. -/
def dtestNew (input : NewInput) (reg : Registry) : Except DTestException (Option Nat) × Registry :=
  match input with
  | NewInput.noneInput => (Except.ok none, reg)
  | NewInput.node i => (Except.ok (some i), reg)
  | NewInput.key k =>
    if !k.callable && !k.classmethod && !k.staticmethod then
      (Except.error DTestException.notCallable, reg)
    else
      match regFind k reg with
      | some i => (Except.ok (some i), reg)
      | none => (Except.ok (some reg.length), (k, reg.length) :: reg)

/-! ## Attribute access (`__setattr__` / `__getattr__`) -/

/-- A user-supplied attribute value. -/
inductive PyVal
  | int (n : Int)
  | str (s : String)
deriving DecidableEq, Repr

/-- The per-object storage `__setattr__`/`__getattr__` operate over: the
internal fields assigned through `super().__setattr__` in `__new__`, and the
`_attrs` dictionary (an association list; the first binding of a key is its
current value). -/
structure PyNode where
  state : Option St := none
  deps : List Nat := []
  revdeps : List Nat := []
  partner : Option Nat := none
  preHook : Option Nat := none
  postHook : Option Nat := none
  attrs : List (String × PyVal) := []
deriving DecidableEq, Repr

/-- The internal-key test `key[0] == '_'` of `__setattr__`/`__delattr__`. -/
def underscoreKey (k : String) : Bool :=
  match k.data with
  | [] => false
  | c :: _ => c == '_'

/-- `DTestBase.__setattr__`: a key whose first character is an underscore is
assigned through `super().__setattr__` (the internal fields, outside this
model's non-underscore claims — left unchanged here); any other key is
stored in the `_attrs` dictionary. -/
def pySetAttr (n : PyNode) (k : String) (v : PyVal) : PyNode :=
  if underscoreKey k then n
  else { n with attrs := (k, v) :: n.attrs }

/-- Reading attribute `k`: an underscore key is found by normal lookup among
the internal fields; a non-underscore key is never in the instance
dictionary (`__setattr__` routes it into `_attrs`), so Python falls back to
`DTestBase.__getattr__`, whose body `return dt._attrs[key]` evaluates the
name `dt` — which is not bound anywhere in the module — and therefore raises
`NameError` before the `_attrs` dictionary is ever consulted. -/
def pyGetAttr (_n : PyNode) (_k : String) : Except PyError PyVal :=
  Except.error PyError.nameError

/-! ## Scope chain builder (`_mod_fixtures`) -/

/-- Add `x` to the list viewed as a set (the `_deps`/`_revdeps` sets of the
Python code). -/
def insertId (x : Nat) (l : List Nat) : List Nat := if x ∈ l then l else l ++ [x]

/-- One edge added by `depends(...)`: `i._deps |= {d}` together with the
automatic reverse edge `d._revdeps.add(i)`. -/
def addDepEdge (w : World) (i d : Nat) : World :=
  { w with nodes := fun j =>
      let n := w.nodes j
      let n2 := if j = i then { n with deps := insertId d n.deps } else n
      if j = d then { n2 with revdeps := insertId i n2.revdeps } else n2 }

/-- `depends(*ds)(i)`: node `i` comes to depend on every entry of `ds`. -/
def dependsOn (w : World) (ds : List Nat) (i : Nat) : World :=
  ds.foldl (fun a d => addDepEdge a i d) w

/-- `DTestFixture._set_partner(setUp)`: a `None` set-up is ignored;
otherwise a dependency on the set-up is added with `depends` and the partner
pointer is stored. -/
def setPartnerOp (w : World) (i : Nat) (s : Option Nat) : World :=
  match s with
  | none => w
  | some p =>
    let w1 := addDepEdge w i p
    { w1 with nodes := fun j => if j = i then { w1.nodes j with partner := some p } else w1.nodes j }

/-- One level of the module walk in `_mod_fixtures`: the set-up fixture the
level declares, if any, and likewise the teardown fixture. -/
structure Level where
  setUp : Option Nat := none
  tearDown : Option Nat := none

/-- The per-module loop of `_mod_fixtures`: walk the levels outermost first,
collecting the set-up fixtures and the teardown fixtures in order; whenever a
level has a teardown, call `_set_partner` on it with that same level's
set-up (which is `None` when the level declares none). -/
def collectLevels : List Level → World → World × List Nat × List Nat
  | [], w => (w, [], [])
  | lv :: rest, w =>
    let w1 := match lv.tearDown with
      | some t => setPartnerOp w t lv.setUp
      | none => w
    let r := collectLevels rest w1
    (r.1, lv.setUp.toList ++ r.2.1, lv.tearDown.toList ++ r.2.2)

/-- The second loop of `_mod_fixtures`: each set-up depends on all the
set-ups before it (`depends(*setUps[:i])(setUps[i])`).  `acc` is the prefix
already walked. -/
def chainSetups (w : World) (acc : List Nat) : List Nat → World
  | [] => w
  | s :: rest => chainSetups (dependsOn w acc s) (acc ++ [s]) rest

/-- The third loop of `_mod_fixtures`: each teardown depends on all the
teardowns after it (`depends(*tearDowns[i+1:])(tearDowns[i])`). -/
def chainTeardowns (w : World) : List Nat → World
  | [] => w
  | t :: rest => chainTeardowns (dependsOn w rest t) rest

/-- `_mod_fixtures(modname)` restricted to its fixture-wiring effect:
collect the set-ups and teardowns level by level (pairing each teardown with
its level's set-up), chain the set-ups forward and the teardowns backward,
and return both ordered lists. -/
def modFixtures (levels : List Level) (w : World) : World × List Nat × List Nat :=
  let c := collectLevels levels w
  let w2 := chainSetups c.1 [] c.2.1
  let w3 := chainTeardowns w2 c.2.2
  (w3, c.2.1, c.2.2)

/-! ## Basic facts about the state predicates -/

theorem failedState_iff (s : Option St) :
    failedState s = true ↔ (s = some St.FAIL ∨ s = some St.ERROR ∨ s = some St.DEPFAIL) := by
  cases s with
  | none => decide
  | some st => cases st <;> decide

theorem terminalState_iff (s : Option St) :
    terminalState s = true ↔ (¬ s = none ∧ ¬ s = some St.RUNNING) := by
  cases s with
  | none => decide
  | some st => cases st <;> decide

/-! ## Readiness of a `DTest` (claim C1) -/

theorem depcheckLoop_ready (w : World) (i : Nat) (notify : Bool) (l : List Nat) :
    (depcheckLoop w i notify l).2 = true ↔ ∀ d ∈ l, (w.nodes d).state = some St.OK := by
  induction l with
  | nil => simp [depcheckLoop]
  | cons d rest ih =>
    by_cases h1 : failedState (w.nodes d).state = true
    · have hd : ¬ (w.nodes d).state = some St.OK := by
        intro he; rw [he] at h1; exact absurd h1 (by decide)
      simp only [depcheckLoop, if_pos h1]
      constructor
      · intro hc; exact absurd hc (by decide)
      · intro hall; exact absurd (hall d (by simp)) hd
    · by_cases h2 : (w.nodes d).state = some St.SKIPPED
      · simp only [depcheckLoop, if_neg h1, if_pos h2]
        constructor
        · intro hc; exact absurd hc (by decide)
        · intro hall; rw [hall d (by simp)] at h2; exact absurd h2 (by decide)
      · by_cases h3 : (w.nodes d).state = some St.OK
        · have h4 : ¬ ((w.nodes d).state ≠ some St.OK) := by simp [h3]
          simp only [depcheckLoop, if_neg h1, if_neg h2, if_neg h4]
          rw [ih]
          constructor
          · intro hall x hx
            rcases List.mem_cons.mp hx with he | hx2
            · rw [he]; exact h3
            · exact hall x hx2
          · intro hall x hx; exact hall x (List.mem_cons_of_mem d hx)
        · simp only [depcheckLoop, if_neg h1, if_neg h2, if_pos h3]
          constructor
          · intro hc; exact absurd hc (by decide)
          · intro hall; exact absurd (hall d (by simp)) h3

theorem depcheckLoop_ok_prefix (w : World) (i : Nat) (notify : Bool) (pre l : List Nat)
    (hpre : ∀ x ∈ pre, (w.nodes x).state = some St.OK) :
    depcheckLoop w i notify (pre ++ l) = depcheckLoop w i notify l := by
  induction pre with
  | nil => rfl
  | cons x pre ih =>
    have hx := hpre x (by simp)
    have h1 : ¬ failedState (w.nodes x).state = true := by rw [hx]; decide
    have h2 : ¬ (w.nodes x).state = some St.SKIPPED := by rw [hx]; decide
    have h3 : ¬ ((w.nodes x).state ≠ some St.OK) := by simp [hx]
    show depcheckLoop w i notify (x :: (pre ++ l)) = _
    simp only [depcheckLoop, if_neg h1, if_neg h2, if_neg h3]
    exact ih fun y hy => hpre y (List.mem_cons_of_mem x hy)

/-- C1.  The claim as stated fails on the code (see
`claim_C1_counterexample`): `DTest._depcheck` walks the dependencies in
iteration order and resolves on the first dependency that is not OK, so a
FAIL dependency does not force DEPFAIL when a SKIPPED dependency is
encountered first.  Amended statement: the node is reported ready exactly
when every dependency is OK, and otherwise the first dependency not in OK
decides the outcome — FAIL/ERROR/DEPFAIL transitions the node to DEPFAIL
(not ready), SKIPPED transitions it to SKIPPED (not ready), and a still
UNSTARTED or RUNNING dependency blocks it with no transition. -/
theorem claim_C1 (w : World) (i : Nat) (notify : Bool) :
    ((depcheckTest w i notify).2 = true ↔ ∀ d ∈ (w.nodes i).deps, (w.nodes d).state = some St.OK)
    ∧ (∀ pre d rest, (w.nodes i).deps = pre ++ d :: rest →
        (∀ x ∈ pre, (w.nodes x).state = some St.OK) →
        (failedState (w.nodes d).state = true →
          depcheckTest w i notify = (transition w i St.DEPFAIL notify, false))
        ∧ ((w.nodes d).state = some St.SKIPPED →
          depcheckTest w i notify = (transition w i St.SKIPPED notify, false))
        ∧ (failedState (w.nodes d).state = false → ¬ (w.nodes d).state = some St.SKIPPED →
            ¬ (w.nodes d).state = some St.OK →
          depcheckTest w i notify = (w, false))) := by
  constructor
  · exact depcheckLoop_ready w i notify (w.nodes i).deps
  · intro pre d rest hsplit hpre
    have hred : depcheckTest w i notify = depcheckLoop w i notify (d :: rest) := by
      unfold depcheckTest
      rw [hsplit]
      exact depcheckLoop_ok_prefix w i notify pre (d :: rest) hpre
    refine ⟨?_, ?_, ?_⟩
    · intro h1
      rw [hred]
      simp only [depcheckLoop, if_pos h1]
    · intro h2
      have h1 : ¬ failedState (w.nodes d).state = true := by
        intro hc
        rcases (failedState_iff _).mp hc with h | h | h <;> rw [h2] at h <;> exact absurd h (by decide)
      rw [hred]
      simp only [depcheckLoop, if_neg h1, if_pos h2]
    · intro h1 h2 h3
      rw [hred]
      have h1b : ¬ failedState (w.nodes d).state = true := by rw [h1]; decide
      have h3b : (w.nodes d).state ≠ some St.OK := h3
      simp only [depcheckLoop, if_neg h1b, if_neg h2, if_pos h3b]

/-- A test node whose dependency list holds a SKIPPED dependency before a
FAIL dependency. -/
def wC1 : World :=
  { nodes := fun j => match j with
      | 0 => { deps := [1, 2] }
      | 1 => { state := some St.SKIPPED }
      | 2 => { state := some St.FAIL }
      | _ => {},
    log := [] }

/-- C1 counterexample: node 2 is a FAIL dependency of node 0, yet the
readiness check transitions node 0 to SKIPPED, not DEPFAIL, because the
SKIPPED dependency is examined first. -/
theorem claim_C1_counterexample :
    2 ∈ (wC1.nodes 0).deps ∧ (wC1.nodes 2).state = some St.FAIL ∧
    ((depcheckTest wC1 0 false).1.nodes 0).state = some St.SKIPPED ∧
    ¬ ((depcheckTest wC1 0 false).1.nodes 0).state = some St.DEPFAIL := by
  refine ⟨by decide, rfl, rfl, by decide⟩

/-- A test node with a single FAIL dependency. -/
def wC1w : World :=
  { nodes := fun j => match j with
      | 0 => { deps := [1] }
      | 1 => { state := some St.FAIL }
      | _ => {},
    log := [] }

/-- C1 witness: on a node whose first unresolved dependency is FAIL, the
check transitions the node to DEPFAIL and reports it not ready. -/
theorem claim_C1_witness :
    depcheckTest wC1w 0 false = (transition wC1w 0 St.DEPFAIL false, false) :=
  ((claim_C1 wC1w 0 false).2 [] 1 [] rfl (by simp)).1 rfl

/-! ## Readiness of a `DTestFixture` (claim C2) -/

theorem fixtureDepLoop_all (w : World) (l : List Nat) :
    fixtureDepLoop w l = l.all fun d => terminalState (w.nodes d).state := by
  induction l with
  | nil => rfl
  | cons d rest ih =>
    by_cases h : (w.nodes d).state = none ∨ (w.nodes d).state = some St.RUNNING
    · have ht : terminalState (w.nodes d).state = false := by
        rcases h with h | h <;> rw [h] <;> decide
      simp [fixtureDepLoop, h, ht]
    · push_neg at h
      have ht : terminalState (w.nodes d).state = true := (terminalState_iff _).mpr h
      have h2 : ¬ ((w.nodes d).state = none ∨ (w.nodes d).state = some St.RUNNING) := by
        push_neg; exact h
      simp [fixtureDepLoop, h2, ht, ih]

/-- C2.  `DTestFixture._depcheck`: a partner in FAIL/ERROR/DEPFAIL
transitions the fixture to DEPFAIL (not ready); a SKIPPED partner
transitions it to SKIPPED (not ready); otherwise the fixture is ready
exactly when every dependency — the dependencies other than the partner, and
the partner itself when it is one of them — has reached some terminal state,
a still UNSTARTED or RUNNING dependency blocking it, with no transition
performed; and a fixture with no partner degrades to exactly that
all-dependencies-terminal rule. -/
theorem claim_C2 (w : World) (i : Nat) (notify : Bool) :
    (∀ p, (w.nodes i).partner = some p →
      (failedState (w.nodes p).state = true →
        depcheckFixture w i notify = (transition w i St.DEPFAIL notify, false))
      ∧ ((w.nodes p).state = some St.SKIPPED →
        depcheckFixture w i notify = (transition w i St.SKIPPED notify, false))
      ∧ (failedState (w.nodes p).state = false → ¬ (w.nodes p).state = some St.SKIPPED →
        depcheckFixture w i notify =
          (w, (w.nodes i).deps.all fun d => terminalState (w.nodes d).state)))
    ∧ ((w.nodes i).partner = none →
      depcheckFixture w i notify =
        (w, (w.nodes i).deps.all fun d => terminalState (w.nodes d).state)) := by
  constructor
  · intro p hp
    refine ⟨?_, ?_, ?_⟩
    · intro h1
      unfold depcheckFixture
      rw [hp]
      simp only [if_pos h1]
    · intro h2
      have h1 : ¬ failedState (w.nodes p).state = true := by
        intro hc
        rcases (failedState_iff _).mp hc with h | h | h <;> rw [h2] at h <;> exact absurd h (by decide)
      unfold depcheckFixture
      rw [hp]
      simp only [if_neg h1, if_pos h2]
    · intro h1 h2
      have h1b : ¬ failedState (w.nodes p).state = true := by rw [h1]; decide
      unfold depcheckFixture
      rw [hp]
      simp only [if_neg h1b, if_neg h2]
      rw [fixtureDepLoop_all]
  · intro hp
    unfold depcheckFixture
    rw [hp, fixtureDepLoop_all]

/-- A teardown fixture (node 0) whose partner (node 1) failed while the
guarded test (node 2) finished OK. -/
def wC2 : World :=
  { nodes := fun j => match j with
      | 0 => { isFixture := true, deps := [1, 2], partner := some 1 }
      | 1 => { isFixture := true, state := some St.FAIL }
      | 2 => { state := some St.OK }
      | _ => {},
    log := [] }

/-- C2 witness: the fixture whose partner failed transitions to DEPFAIL and
is not ready. -/
theorem claim_C2_witness :
    depcheckFixture wC2 0 false = (transition wC2 0 St.DEPFAIL false, false) :=
  ((claim_C2 wC2 0 false).1 1 rfl).1 rfl

/-! ## Evolution of the graph under the skip cascades

The cascades never touch the edge sets or the partner pointer, and they only
assign a state to a node that was still unstarted (every `_transition` call
they make sits behind a `_state is None` guard), always assigning SKIPPED. -/

/-- How one node may change under a skip cascade: edges and partner are
untouched, and the state either stays what it was or goes from unstarted to
SKIPPED. -/
def nodeStable (a b : Node) : Prop :=
  b.isFixture = a.isFixture ∧ b.deps = a.deps ∧ b.revdeps = a.revdeps ∧ b.partner = a.partner ∧
  (b.state = a.state ∨ (a.state = none ∧ b.state = some St.SKIPPED))

/-- Pointwise `nodeStable` over the whole graph. -/
def evolves (w w2 : World) : Prop := ∀ j, nodeStable (w.nodes j) (w2.nodes j)

theorem nodeStable_refl (a : Node) : nodeStable a a := ⟨rfl, rfl, rfl, rfl, Or.inl rfl⟩

theorem nodeStable_trans {a b c : Node} (h1 : nodeStable a b) (h2 : nodeStable b c) :
    nodeStable a c := by
  refine ⟨h2.1.trans h1.1, h2.2.1.trans h1.2.1, h2.2.2.1.trans h1.2.2.1,
    h2.2.2.2.1.trans h1.2.2.2.1, ?_⟩
  rcases h1.2.2.2.2 with hb | ⟨ha, hb⟩
  · rcases h2.2.2.2.2 with hc | ⟨hb2, hc⟩
    · exact Or.inl (hc.trans hb)
    · exact Or.inr ⟨hb ▸ hb2, hc⟩
  · rcases h2.2.2.2.2 with hc | ⟨hb2, hc⟩
    · exact Or.inr ⟨ha, hc.trans hb⟩
    · rw [hb] at hb2; cases hb2

theorem evolves_refl (w : World) : evolves w w := fun _ => nodeStable_refl _

theorem evolves_trans {w1 w2 w3 : World} (h1 : evolves w1 w2) (h2 : evolves w2 w3) :
    evolves w1 w3 := fun j => nodeStable_trans (h1 j) (h2 j)

theorem evolves_transition (w : World) (i : Nat) (notify : Bool)
    (h : (w.nodes i).state = none) : evolves w (transition w i St.SKIPPED notify) := by
  intro j
  show nodeStable (w.nodes j) (if j = i then { w.nodes i with state := some St.SKIPPED } else w.nodes j)
  by_cases hj : j = i
  · subst hj
    simp only [if_pos rfl, if_true]
    exact ⟨rfl, rfl, rfl, rfl, Or.inr ⟨h, rfl⟩⟩
  · simp only [if_neg hj]
    exact nodeStable_refl _

/-- Folding a fallible step over a list from an already-raised error keeps
the error (the Python loop was already aborted). -/
theorem foldl_bind_error (f : World → Nat → Except (PyError × World) World)
    (e : PyError × World) (l : List Nat) :
    l.foldl (fun a j => Except.bind a fun b => f b j) (Except.error e) = Except.error e := by
  induction l with
  | nil => rfl
  | cons x rest ih => exact ih

/-- If every fallible step that returns cleanly evolves the graph, so does a
clean run of the whole fold. -/
theorem evolves_foldlE (f : World → Nat → Except (PyError × World) World)
    (h : ∀ a j b, f a j = Except.ok b → evolves a b) :
    ∀ (l : List Nat) (w w2 : World),
      l.foldl (fun a j => Except.bind a fun b => f b j) (Except.ok w) = Except.ok w2 →
      evolves w w2 := by
  intro l
  induction l with
  | nil =>
    intro w w2 hw
    injection hw with hw2
    subst hw2
    exact evolves_refl _
  | cons x rest ih =>
    intro w w2 hw
    rw [List.foldl_cons] at hw
    cases hfx : f w x with
    | error e =>
      rw [show (Except.bind (Except.ok w) fun b => f b x) = f w x from rfl, hfx,
        foldl_bind_error f e rest] at hw
      exact Except.noConfusion hw
    | ok b =>
      rw [show (Except.bind (Except.ok w) fun b => f b x) = f w x from rfl, hfx] at hw
      exact evolves_trans (h w x b hfx) (ih b w2 hw)

/-- Any cascade operation that returns cleanly evolves the graph: edges and
partners untouched, states changed only from unstarted to SKIPPED. -/
theorem evolves_cascade (fuel : Nat) :
    (∀ w i notify w2, skippedBase fuel w i notify = Except.ok w2 → evolves w w2)
    ∧ (∀ w i notify w2, skippedDispatch fuel w i notify = Except.ok w2 → evolves w w2)
    ∧ (∀ w i notify w2, notifySkippedDispatch fuel w i notify = Except.ok w2 → evolves w w2) := by
  induction fuel with
  | zero =>
    refine ⟨?_, ?_, ?_⟩ <;>
      (intro w i notify w2 h; injection h with h2; subst h2; exact evolves_refl _)
  | succ fuel ih =>
    refine ⟨?_, ?_, ?_⟩
    · intro w i notify w2 h
      by_cases hs : (w.nodes i).state = none
      · simp only [skippedBase, if_pos hs] at h
        cases hA : (w.nodes i).revdeps.foldl
            (fun a j => Except.bind a fun b => skippedDispatch fuel b j notify)
            (Except.ok (transition w i St.SKIPPED notify)) with
        | error e =>
          rw [hA] at h
          exact Except.noConfusion h
        | ok b =>
          rw [hA] at h
          have e1 : evolves (transition w i St.SKIPPED notify) b :=
            evolves_foldlE _ (fun a j c hc => ih.2.1 a j notify c hc) _ _ _ hA
          have e2 : evolves b w2 :=
            evolves_foldlE _ (fun a j c hc => ih.2.2 a j notify c hc) _ _ _ h
          exact evolves_trans (evolves_trans (evolves_transition w i notify hs) e1) e2
      · simp only [skippedBase, if_neg hs] at h
        injection h with h2
        subst h2
        exact evolves_refl _
    · intro w i notify w2 h
      simp only [skippedDispatch] at h
      by_cases hf : (w.nodes i).isFixture = true
      · simp only [if_pos hf] at h
        cases hg : fixtureSkipGuard w i with
        | error e =>
          rw [hg] at h
          exact Except.noConfusion h
        | ok bv =>
          rw [hg] at h
          cases bv with
          | false =>
            injection h with h2
            subst h2
            exact evolves_refl _
          | true => exact ih.1 w i notify w2 h
      · simp only [if_neg hf] at h
        exact ih.1 w i notify w2 h
    · intro w i notify w2 h
      simp only [notifySkippedDispatch] at h
      by_cases hf : (w.nodes i).isFixture = true
      · simp only [if_pos hf] at h
        by_cases hg : allDependentsSkipped w i = true
        · simp only [if_pos hg] at h
          exact ih.1 w i notify w2 h
        · simp only [if_neg hg] at h
          injection h with h2
          subst h2
          exact evolves_refl _
      · simp only [if_neg hf] at h
        injection h with h2
        subst h2
        exact evolves_refl _

theorem evolves_state_some {w w2 : World} (h : evolves w w2) {j : Nat} {s : St}
    (hs : (w.nodes j).state = some s) : (w2.nodes j).state = some s := by
  rcases (h j).2.2.2.2 with he | ⟨hn, _⟩
  · rw [he, hs]
  · rw [hs] at hn; cases hn

/-! ## Behavior of the fixture skip guard -/

/-- With a partner present the guard loop never raises. -/
theorem fixtureSkipGuardLoop_some_ok (w : World) (p : Nat) :
    ∀ l : List Nat, ∃ bv, fixtureSkipGuardLoop w (some p) l = Except.ok bv := by
  intro l
  induction l with
  | nil => exact ⟨true, rfl⟩
  | cons x rest ih =>
    by_cases hc : ¬ x = p ∧ ¬ (w.nodes x).state = some St.SKIPPED
    · exact ⟨false, by simp only [fixtureSkipGuardLoop, if_pos hc]⟩
    · rcases ih with ⟨bv, hbv⟩
      refine ⟨bv, ?_⟩
      simp only [fixtureSkipGuardLoop, if_neg hc]
      exact hbv

/-- A guard loop that completed with True saw every non-partner dependency
already SKIPPED. -/
theorem fixtureSkipGuardLoop_ok_true (w : World) (po : Option Nat) :
    ∀ l : List Nat, fixtureSkipGuardLoop w po l = Except.ok true →
      ∀ d ∈ l, ¬ some d = po → (w.nodes d).state = some St.SKIPPED := by
  intro l
  induction l with
  | nil =>
    intro _ d hd
    exact absurd hd (List.not_mem_nil d)
  | cons x rest ih =>
    intro h d hd hne
    cases po with
    | none => exact Except.noConfusion h
    | some p =>
      by_cases hc : ¬ x = p ∧ ¬ (w.nodes x).state = some St.SKIPPED
      · have hfalse : fixtureSkipGuardLoop w (some p) (x :: rest) = Except.ok false := by
          simp only [fixtureSkipGuardLoop, if_pos hc]
        rw [hfalse] at h
        injection h with h2
        exact absurd h2 (by decide)
      · have hrec : fixtureSkipGuardLoop w (some p) (x :: rest)
            = fixtureSkipGuardLoop w (some p) rest := by
          simp only [fixtureSkipGuardLoop, if_neg hc]
        rw [hrec] at h
        rcases List.mem_cons.mp hd with he | hr
        · subst he
          rcases not_and_or.mp hc with h1 | h2
          · exact absurd (congrArg some (not_not.mp h1)) hne
          · exact not_not.mp h2
        · exact ih h d hr hne

/-- With a partner present and every non-partner dependency SKIPPED the
guard loop completes with True. -/
theorem fixtureSkipGuardLoop_complete (w : World) (p : Nat) :
    ∀ l : List Nat, (∀ d ∈ l, ¬ d = p → (w.nodes d).state = some St.SKIPPED) →
      fixtureSkipGuardLoop w (some p) l = Except.ok true := by
  intro l
  induction l with
  | nil => intro _; rfl
  | cons x rest ih =>
    intro h
    have hc : ¬ (¬ x = p ∧ ¬ (w.nodes x).state = some St.SKIPPED) := by
      intro hc2
      exact hc2.2 (h x (by simp) hc2.1)
    have hrec : fixtureSkipGuardLoop w (some p) (x :: rest)
        = fixtureSkipGuardLoop w (some p) rest := by
      simp only [fixtureSkipGuardLoop, if_neg hc]
    rw [hrec]
    exact ih fun d hd => h d (List.mem_cons_of_mem x hd)

/-! ## No-op and raise behavior on re-invocation -/

theorem skippedBase_stuck (fuel : Nat) (w : World) (i : Nat) (notify : Bool)
    (h : ¬ (w.nodes i).state = none) : skippedBase fuel w i notify = Except.ok w := by
  cases fuel with
  | zero => rfl
  | succ fuel => simp only [skippedBase, if_neg h]

theorem notifySkippedDispatch_stuck (fuel : Nat) (w : World) (i : Nat) (notify : Bool)
    (h : ¬ (w.nodes i).state = none) :
    notifySkippedDispatch fuel w i notify = Except.ok w := by
  cases fuel with
  | zero => rfl
  | succ fuel =>
    simp only [notifySkippedDispatch]
    by_cases hf : (w.nodes i).isFixture = true
    · simp only [if_pos hf]
      by_cases hg : allDependentsSkipped w i = true
      · simp only [if_pos hg, skippedBase_stuck fuel w i notify h]
      · simp only [if_neg hg]
    · simp only [if_neg hf]

theorem skippedDispatch_stuck (fuel : Nat) (w : World) (i : Nat) (notify : Bool)
    (h : ¬ (w.nodes i).state = none)
    (hguard : (w.nodes i).isFixture = false ∨ (∃ p, (w.nodes i).partner = some p)
      ∨ (w.nodes i).deps = []) :
    skippedDispatch fuel w i notify = Except.ok w := by
  cases fuel with
  | zero => rfl
  | succ fuel =>
    simp only [skippedDispatch]
    by_cases hf : (w.nodes i).isFixture = true
    · simp only [if_pos hf]
      rcases hguard with hf2 | ⟨p, hp⟩ | hdeps
      · rw [hf2] at hf
        exact absurd hf (by decide)
      · rcases fixtureSkipGuardLoop_some_ok w p (w.nodes i).deps with ⟨bv, hbv⟩
        have hg : fixtureSkipGuard w i = Except.ok bv := by
          unfold fixtureSkipGuard
          rw [hp]
          exact hbv
        rw [hg]
        cases bv with
        | false => rfl
        | true => exact skippedBase_stuck fuel w i notify h
      · have hg : fixtureSkipGuard w i = Except.ok true := by
          unfold fixtureSkipGuard
          rw [hdeps]
          rfl
        rw [hg]
        exact skippedBase_stuck fuel w i notify h
    · simp only [if_neg hf]
      exact skippedBase_stuck fuel w i notify h

/-- `DTestFixture._skipped` on a partner-less fixture with at least one
dependency raises AttributeError before reading any state: the guard's
`dep != self._partner` calls `__ne__` on `None`. -/
theorem skippedDispatch_raises (fuel : Nat) (w : World) (i : Nat) (notify : Bool)
    (hf : (w.nodes i).isFixture = true) (hp : (w.nodes i).partner = none)
    (hdeps : ¬ (w.nodes i).deps = []) :
    skippedDispatch (fuel + 1) w i notify = Except.error (PyError.attributeError, w) := by
  simp only [skippedDispatch, if_pos hf]
  have hg : fixtureSkipGuard w i = Except.error PyError.attributeError := by
    unfold fixtureSkipGuard
    rw [hp]
    rcases List.exists_cons_of_ne_nil hdeps with ⟨d, rest, hd⟩
    rw [hd]
    rfl
  rw [hg]

/-- C3.  The claim as stated fails on the code (see
`claim_C3_counterexample`): the low-level `_transition` has no guard at all
and unconditionally overwrites the state and re-notifies, and on a
partner-less fixture with dependencies the fixture-variant `_skipped` raises
AttributeError rather than returning.  Amended statement: once a node is in
a terminal state, re-invoking the base skip operation or the skip
notification is a no-op returning the graph unchanged, and so is the
fixture-variant skip operation when the node is a plain test, has a partner,
or has no dependencies; re-invoking the fixture variant on a partner-less
fixture with dependencies instead raises AttributeError (its guard's
`dep != self._partner` evaluates `None._test`) with the graph unchanged at
the raise; and the raw `_transition` operation performs no at-most-once
guard and always assigns the requested state. -/
theorem claim_C3 (w : World) (i : Nat) (notify : Bool) (fuel : Nat) (s : St) :
    (terminalState (w.nodes i).state = true →
      skippedBase fuel w i notify = Except.ok w
      ∧ notifySkippedDispatch fuel w i notify = Except.ok w
      ∧ ((w.nodes i).isFixture = false ∨ (∃ p, (w.nodes i).partner = some p)
          ∨ (w.nodes i).deps = [] →
        skippedDispatch fuel w i notify = Except.ok w))
    ∧ ((w.nodes i).isFixture = true → (w.nodes i).partner = none →
        ¬ (w.nodes i).deps = [] →
        skippedDispatch (fuel + 1) w i notify = Except.error (PyError.attributeError, w))
    ∧ ((transition w i s notify).nodes i).state = some s := by
  refine ⟨?_, ?_, ?_⟩
  · intro ht
    have h : ¬ (w.nodes i).state = none := ((terminalState_iff _).mp ht).1
    exact ⟨skippedBase_stuck fuel w i notify h, notifySkippedDispatch_stuck fuel w i notify h,
      fun hg => skippedDispatch_stuck fuel w i notify h hg⟩
  · exact skippedDispatch_raises fuel w i notify
  · show (if i = i then { w.nodes i with state := some s } else w.nodes i).state = some s
    simp only [if_pos rfl, if_true]

/-- A test node already in the terminal state OK. -/
def wC3 : World :=
  { nodes := fun j => match j with
      | 0 => { state := some St.OK }
      | _ => {},
    log := [] }

/-- A partner-less teardown fixture already terminal, with one dependency. -/
def wC3b : World :=
  { nodes := fun j => match j with
      | 0 => { isFixture := true, deps := [1], state := some St.OK }
      | 1 => { state := some St.OK }
      | _ => {},
    log := [] }

/-- C3 counterexample: re-invoking `_transition` on a node already in the
terminal state OK is not a no-op — the state is overwritten to FAIL and the
notification callback fires again — and re-invoking the fixture-variant skip
operation on the terminal partner-less fixture of `wC3b` raises
AttributeError rather than returning. -/
theorem claim_C3_counterexample :
    (wC3.nodes 0).state = some St.OK ∧
    ((transition wC3 0 St.FAIL true).nodes 0).state = some St.FAIL ∧
    ¬ ((transition wC3 0 St.FAIL true).nodes 0).state = some St.OK ∧
    ¬ (transition wC3 0 St.FAIL true).log = wC3.log ∧
    terminalState (wC3b.nodes 0).state = true ∧
    skippedDispatch 1 wC3b 0 false = Except.error (PyError.attributeError, wC3b) :=
  ⟨rfl, rfl, by decide, by decide, rfl, rfl⟩

/-- C3 witness: on the terminal node of `wC3` the base skip operation is a
no-op, while `_transition` still overwrites. -/
theorem claim_C3_witness :
    skippedBase 5 wC3 0 true = Except.ok wC3 ∧
    ((transition wC3 0 St.SKIPPED true).nodes 0).state = some St.SKIPPED := by
  have h := claim_C3 wC3 0 true 5 St.SKIPPED
  exact ⟨(h.1 rfl).1, h.2.2⟩

/-- C4.  `DTestFixture._notify_skipped` invokes the superclass skip
propagation on the fixture exactly when every entry of the fixture's direct
`_revdeps` set is SKIPPED (the guard reads only the direct dependents, no
transitive traversal); and the fixture's own forward cascade marks the
fixture SKIPPED only when every non-partner dependency is already SKIPPED:
with a partner present its guard passes exactly under that condition, a
guard that returns early changes nothing, any invocation that returns
cleanly leaving the fixture newly SKIPPED had every non-partner dependency
SKIPPED, and when the guard passes on a still-unstarted fixture a clean
invocation does leave it SKIPPED.  (A partner-less fixture with dependencies
raises AttributeError in the guard — C3's amendment — and so never marks
anything.) -/
theorem claim_C4 (w : World) (i : Nat) (notify : Bool) (fuel : Nat)
    (hfix : (w.nodes i).isFixture = true) :
    (allDependentsSkipped w i = false →
        notifySkippedDispatch (fuel + 1) w i notify = Except.ok w)
    ∧ (allDependentsSkipped w i = true →
        notifySkippedDispatch (fuel + 1) w i notify = skippedBase fuel w i notify)
    ∧ (∀ p, (w.nodes i).partner = some p →
        (fixtureSkipGuard w i = Except.ok true
          ↔ ∀ d ∈ (w.nodes i).deps, ¬ d = p → (w.nodes d).state = some St.SKIPPED))
    ∧ (fixtureSkipGuard w i = Except.ok false →
        skippedDispatch (fuel + 1) w i notify = Except.ok w)
    ∧ (∀ w2, skippedDispatch (fuel + 1) w i notify = Except.ok w2 →
        (w2.nodes i).state = some St.SKIPPED → ¬ (w.nodes i).state = some St.SKIPPED →
        ∀ d ∈ (w.nodes i).deps, ¬ some d = (w.nodes i).partner →
          (w.nodes d).state = some St.SKIPPED)
    ∧ (fixtureSkipGuard w i = Except.ok true → (w.nodes i).state = none →
        ∀ w2, skippedDispatch (fuel + 2) w i notify = Except.ok w2 →
          (w2.nodes i).state = some St.SKIPPED) := by
  refine ⟨?_, ?_, ?_, ?_, ?_, ?_⟩
  · intro hg
    have hg2 : ¬ allDependentsSkipped w i = true := by simp [hg]
    simp only [notifySkippedDispatch, if_pos hfix, if_neg hg2]
  · intro hg
    simp only [notifySkippedDispatch, if_pos hfix, if_pos hg]
  · intro p hp
    constructor
    · intro hgt d hd hne
      unfold fixtureSkipGuard at hgt
      rw [hp] at hgt
      exact fixtureSkipGuardLoop_ok_true w (some p) _ hgt d hd
        fun hc => hne (Option.some.inj hc)
    · intro hall
      unfold fixtureSkipGuard
      rw [hp]
      exact fixtureSkipGuardLoop_complete w p _ hall
  · intro hg
    simp only [skippedDispatch, if_pos hfix]
    rw [hg]
  · intro w2 hok h2 h3 d hd hne
    simp only [skippedDispatch, if_pos hfix] at hok
    cases hg : fixtureSkipGuard w i with
    | error e =>
      rw [hg] at hok
      exact Except.noConfusion hok
    | ok bv =>
      rw [hg] at hok
      cases bv with
      | false =>
        injection hok with h4
        subst h4
        exact absurd h2 h3
      | true =>
        unfold fixtureSkipGuard at hg
        exact fixtureSkipGuardLoop_ok_true w (w.nodes i).partner _ hg d hd hne
  · intro hgt hs w2 hok
    have h1 : skippedDispatch (fuel + 2) w i notify = skippedBase (fuel + 1) w i notify := by
      simp only [skippedDispatch, if_pos hfix]
      rw [hgt]
    rw [h1] at hok
    simp only [skippedBase, if_pos hs] at hok
    cases hA : (w.nodes i).revdeps.foldl
        (fun a j => Except.bind a fun b => skippedDispatch fuel b j notify)
        (Except.ok (transition w i St.SKIPPED notify)) with
    | error e =>
      rw [hA] at hok
      exact Except.noConfusion hok
    | ok b =>
      rw [hA] at hok
      have ht : ((transition w i St.SKIPPED notify).nodes i).state = some St.SKIPPED := by
        show (if i = i then { w.nodes i with state := some St.SKIPPED } else w.nodes i).state
          = some St.SKIPPED
        simp only [if_pos rfl, if_true]
      have e1 : evolves (transition w i St.SKIPPED notify) b :=
        evolves_foldlE _ (fun a j c hc => (evolves_cascade fuel).2.1 a j notify c hc) _ _ _ hA
      have e2 : evolves b w2 :=
        evolves_foldlE _ (fun a j c hc => (evolves_cascade fuel).2.2 a j notify c hc) _ _ _ hok
      exact evolves_state_some (evolves_trans e1 e2) ht

/-- A teardown fixture (node 0, unstarted) whose single direct dependent
(node 1) is SKIPPED, whose partner (node 2) ran OK, and whose only other
dependency (node 3) is SKIPPED. -/
def wC4 : World :=
  { nodes := fun j => match j with
      | 0 => { isFixture := true, deps := [2, 3], revdeps := [1], partner := some 2 }
      | 1 => { state := some St.SKIPPED }
      | 2 => { isFixture := true, state := some St.OK }
      | 3 => { state := some St.SKIPPED }
      | _ => {},
    log := [] }

/-- C4 witness: with every direct dependent SKIPPED the backward cascade
invokes the superclass propagation, the guard passes because every
non-partner dependency is SKIPPED, and the clean forward invocation marks
the unstarted fixture SKIPPED. -/
theorem claim_C4_witness :
    notifySkippedDispatch 1 wC4 0 false = skippedBase 0 wC4 0 false
    ∧ fixtureSkipGuard wC4 0 = Except.ok true
    ∧ (∃ w2, skippedDispatch 2 wC4 0 false = Except.ok w2
        ∧ (w2.nodes 0).state = some St.SKIPPED) := by
  have h := claim_C4 wC4 0 false 0 rfl
  refine ⟨h.2.1 rfl, (h.2.2.1 2 rfl).mpr (by decide), transition wC4 0 St.SKIPPED false, rfl, ?_⟩
  exact h.2.2.2.2.2 ((h.2.2.1 2 rfl).mpr (by decide)) rfl
    (transition wC4 0 St.SKIPPED false) rfl

/-- C6.  The claim as stated fails on the code (see
`claim_C6_counterexample`): when the recursion reaches a partner-less
fixture dependent, its guard raises AttributeError and the loops abort, so
the cascade is not invoked on every entry.  Amended statement: if n's state
is anything other than UNSTARTED the call changes nothing and triggers no
recursion; if n is still UNSTARTED the call transitions n to SKIPPED and
then attempts the dispatched cascade on the entries of n.dependents in order
followed by the skip notification on the entries of n.dependencies in order,
n itself being SKIPPED whenever the call returns cleanly — but an
AttributeError raised inside the recursion (by the guard of a partner-less
fixture with dependencies) aborts the iteration at that entry and
propagates, leaving the remaining entries uninvoked. -/
theorem claim_C6 (fuel : Nat) (w : World) (i : Nat) (notify : Bool) :
    (¬ (w.nodes i).state = none → skippedBase (fuel + 1) w i notify = Except.ok w)
    ∧ ((w.nodes i).state = none →
        skippedBase (fuel + 1) w i notify =
          Except.bind
            ((w.nodes i).revdeps.foldl
              (fun a j => Except.bind a fun b => skippedDispatch fuel b j notify)
              (Except.ok (transition w i St.SKIPPED notify)))
            (fun b =>
              (w.nodes i).deps.foldl
                (fun a j => Except.bind a fun c => notifySkippedDispatch fuel c j notify)
                (Except.ok b))
        ∧ (∀ w2, skippedBase (fuel + 1) w i notify = Except.ok w2 →
            (w2.nodes i).state = some St.SKIPPED)) := by
  constructor
  · intro h
    exact skippedBase_stuck _ w i notify h
  · intro h
    constructor
    · simp only [skippedBase, if_pos h]
    · intro w2 hok
      simp only [skippedBase, if_pos h] at hok
      cases hA : (w.nodes i).revdeps.foldl
          (fun a j => Except.bind a fun b => skippedDispatch fuel b j notify)
          (Except.ok (transition w i St.SKIPPED notify)) with
      | error e =>
        rw [hA] at hok
        exact Except.noConfusion hok
      | ok b =>
        rw [hA] at hok
        have ht : ((transition w i St.SKIPPED notify).nodes i).state = some St.SKIPPED := by
          show (if i = i then { w.nodes i with state := some St.SKIPPED } else w.nodes i).state
            = some St.SKIPPED
          simp only [if_pos rfl, if_true]
        have e1 : evolves (transition w i St.SKIPPED notify) b :=
          evolves_foldlE _ (fun a j c hc => (evolves_cascade fuel).2.1 a j notify c hc) _ _ _ hA
        have e2 : evolves b w2 :=
          evolves_foldlE _ (fun a j c hc => (evolves_cascade fuel).2.2 a j notify c hc) _ _ _ hok
        exact evolves_state_some (evolves_trans e1 e2) ht

/-- An unstarted test node with one dependency and one dependent, both
already resolved. -/
def wC6 : World :=
  { nodes := fun j => match j with
      | 0 => { deps := [1], revdeps := [2] }
      | 1 => { isFixture := true, state := some St.OK }
      | 2 => { state := some St.OK }
      | _ => {},
    log := [] }

/-- An unstarted test node (0) with two dependents: node 1, a partner-less
fixture with a dependency, and node 2, a still-unstarted test. -/
def wC6b : World :=
  { nodes := fun j => match j with
      | 0 => { revdeps := [1, 2] }
      | 1 => { isFixture := true, deps := [3] }
      | 2 => {}
      | 3 => {}
      | _ => {},
    log := [] }

/-- C6 counterexample: the forward cascade on node 0 of `wC6b` transitions
node 0 and then aborts with AttributeError at its first dependent (the
partner-less fixture), so the second dependent is never invoked — its state
is still unstarted in the graph carried by the raise. -/
theorem claim_C6_counterexample :
    (wC6b.nodes 0).state = none
    ∧ (wC6b.nodes 0).revdeps = [1, 2]
    ∧ skippedBase 2 wC6b 0 false
        = Except.error (PyError.attributeError, transition wC6b 0 St.SKIPPED false)
    ∧ ((transition wC6b 0 St.SKIPPED false).nodes 2).state = none :=
  ⟨rfl, rfl, rfl, rfl⟩

/-- C6 witness: the amended behavior on the unstarted node of `wC6`, whose
neighbors are all resolved, so the call returns cleanly with the node
SKIPPED. -/
theorem claim_C6_witness :
    skippedBase 1 wC6 0 false =
      Except.bind
        ((wC6.nodes 0).revdeps.foldl
          (fun a j => Except.bind a fun b => skippedDispatch 0 b j false)
          (Except.ok (transition wC6 0 St.SKIPPED false)))
        (fun b =>
          (wC6.nodes 0).deps.foldl
            (fun a j => Except.bind a fun c => notifySkippedDispatch 0 c j false)
            (Except.ok b))
    ∧ (∀ w2, skippedBase 1 wC6 0 false = Except.ok w2 → (w2.nodes 0).state = some St.SKIPPED) :=
  (claim_C6 0 wC6 0 false).2 rfl

/-! ## One call of `__call__` (claims C5, C7) -/

theorem resultState_ne_running (l : List PhaseOutcome) : ¬ resultState l = St.RUNNING := by
  unfold resultState
  split_ifs <;> decide

theorem terminalSt_of_ne {s : St} (h : ¬ s = St.RUNNING) : terminalSt s = true := by
  cases s
  · exact absurd rfl h
  all_goals rfl

theorem beqRunning_false {s : St} (h : ¬ s = St.RUNNING) : (s == St.RUNNING) = false := by
  cases s
  · exact absurd rfl h
  all_goals rfl

/-- C5.  The claim as stated fails on the code (see
`claim_C5_counterexample`): `_transition` notifies only when the receiver is
a `DTest`, so for a fixture a supplied callback is never invoked.  Amended
statement: one call of `run` performs exactly one terminal-state transition
(the earlier RUNNING transition is transient); for a `Test` node a supplied
callback is invoked exactly once, with the terminal state, and never for the
RUNNING transition; for a `Fixture` node the callback is never invoked. -/
theorem claim_C5 (isFixture notifySupplied : Bool) (pre : Option PhaseOutcome)
    (body : PhaseOutcome) (post : Option PhaseOutcome) :
    (runNode isFixture notifySupplied pre body post).transitions.filter terminalSt
      = [resultState (pre.toList ++ [body] ++ post.toList)]
    ∧ (runNode isFixture notifySupplied pre body post).log
      = (if notifySupplied && !isFixture
         then [resultState (pre.toList ++ [body] ++ post.toList)] else [])
    ∧ St.RUNNING ∉ (runNode isFixture notifySupplied pre body post).log := by
  have hne := resultState_ne_running (pre.toList ++ [body] ++ post.toList)
  refine ⟨?_, ?_, ?_⟩
  · show List.filter terminalSt
        [St.RUNNING, resultState (pre.toList ++ [body] ++ post.toList)] = _
    rw [List.filter_cons, List.filter_cons, List.filter_nil]
    have h1 : terminalSt St.RUNNING = false := rfl
    rw [h1, terminalSt_of_ne hne]
    simp
  · show (if (notifySupplied && !isFixture &&
          !(resultState (pre.toList ++ [body] ++ post.toList) == St.RUNNING)) = true
        then [resultState (pre.toList ++ [body] ++ post.toList)] else []) = _
    rw [beqRunning_false hne]
    simp
  · simp only [runNode]
    split_ifs
    · simp only [List.mem_singleton]
      intro hc
      exact hne hc.symm
    · simp

/-- C5 counterexample: a fixture run with a supplied callback reaches the
terminal state OK, yet the callback is invoked zero times, not once. -/
theorem claim_C5_counterexample :
    ¬ (runNode true true none PhaseOutcome.SUCCESS none).log.length = 1
    ∧ (runNode true true none PhaseOutcome.SUCCESS none).finalState = some St.OK := by
  exact ⟨by decide, rfl⟩

/-- The verdict reduction, case by case. -/
theorem resultState_cases (l : List PhaseOutcome) :
    (resultState l = St.ERROR ↔ PhaseOutcome.UNEXPECTED_ERROR ∈ l)
    ∧ (resultState l = St.FAIL
        ↔ (PhaseOutcome.UNEXPECTED_ERROR ∉ l ∧ PhaseOutcome.ASSERTION_FAILURE ∈ l))
    ∧ (resultState l = St.OK
        ↔ (PhaseOutcome.UNEXPECTED_ERROR ∉ l ∧ PhaseOutcome.ASSERTION_FAILURE ∉ l)) := by
  unfold resultState
  by_cases h1 : PhaseOutcome.UNEXPECTED_ERROR ∈ l
  · simp [h1]
  · by_cases h2 : PhaseOutcome.ASSERTION_FAILURE ∈ l
    · simp [h1, h2]
    · simp [h1, h2]

/-- C7.  When a `post` hook is defined, one call of `run` enters the POST
boundary regardless of the outcomes of the PRE and TEST phases, and the
terminal state is the reduction of all recorded outcomes with precedence
ERROR over FAIL over OK: ERROR exactly when some phase had an unexpected
error, else FAIL exactly when some phase had an assertion failure, else
OK. -/
theorem claim_C7 (isFixture notifySupplied : Bool) (pre : Option PhaseOutcome)
    (body : PhaseOutcome) (post : Option PhaseOutcome) (hpost : post.isSome = true) :
    Phase.POST ∈ (runNode isFixture notifySupplied pre body post).phasesRun
    ∧ (runNode isFixture notifySupplied pre body post).finalState
        = some (resultState (pre.toList ++ [body] ++ post.toList))
    ∧ (resultState (pre.toList ++ [body] ++ post.toList) = St.ERROR
        ↔ PhaseOutcome.UNEXPECTED_ERROR ∈ pre.toList ++ [body] ++ post.toList)
    ∧ (resultState (pre.toList ++ [body] ++ post.toList) = St.FAIL
        ↔ (PhaseOutcome.UNEXPECTED_ERROR ∉ pre.toList ++ [body] ++ post.toList
           ∧ PhaseOutcome.ASSERTION_FAILURE ∈ pre.toList ++ [body] ++ post.toList))
    ∧ (resultState (pre.toList ++ [body] ++ post.toList) = St.OK
        ↔ (PhaseOutcome.UNEXPECTED_ERROR ∉ pre.toList ++ [body] ++ post.toList
           ∧ PhaseOutcome.ASSERTION_FAILURE ∉ pre.toList ++ [body] ++ post.toList)) := by
  have h := resultState_cases (pre.toList ++ [body] ++ post.toList)
  refine ⟨?_, ?_, h.1, h.2.1, h.2.2⟩
  · simp [runNode, hpost]
  · simp [runNode]

/-- C7 witness: with a faulting PRE phase, a failing body and a defined
`post` hook, the POST boundary is still entered and the verdict is ERROR
(the worst of the three phases). -/
theorem claim_C7_witness :
    Phase.POST ∈ (runNode false true (some PhaseOutcome.UNEXPECTED_ERROR)
        PhaseOutcome.ASSERTION_FAILURE (some PhaseOutcome.SUCCESS)).phasesRun
    ∧ (runNode false true (some PhaseOutcome.UNEXPECTED_ERROR)
        PhaseOutcome.ASSERTION_FAILURE (some PhaseOutcome.SUCCESS)).finalState
      = some St.ERROR := by
  have h := claim_C7 false true (some PhaseOutcome.UNEXPECTED_ERROR)
    PhaseOutcome.ASSERTION_FAILURE (some PhaseOutcome.SUCCESS) rfl
  exact ⟨h.1, h.2.1⟩

/-! ## Node construction failure (claim C9) -/

/-- C9.  `DTestBase.__new__` on a unit of work that is neither callable nor
a class method nor a static method raises the framework exception (the error
the spec names InvalidTestDefinition) before any node is created: no node is
returned and the identity cache is returned exactly as it was. -/
theorem claim_C9 (k : TestKey) (reg : Registry)
    (h1 : k.callable = false) (h2 : k.classmethod = false) (h3 : k.staticmethod = false) :
    dtestNew (NewInput.key k) reg = (Except.error DTestException.notCallable, reg) := by
  simp [dtestNew, h1, h2, h3]

/-- A non-invokable unit of work. -/
def kC9 : TestKey := { ident := 7, callable := false, classmethod := false, staticmethod := false }

/-- C9 witness: constructing a node from the non-invokable `kC9` against an
empty cache raises and leaves the cache empty. -/
theorem claim_C9_witness :
    dtestNew (NewInput.key kC9) ([] : Registry)
      = (Except.error DTestException.notCallable, ([] : Registry)) :=
  claim_C9 kC9 ([] : Registry) rfl rfl rfl

/-! ## Attribute round trip (claim C10) -/

/-- C10.  The set half of the claim holds — `__setattr__` on a
non-underscore key stores the value in the `_attrs` mapping and leaves every
internal field unchanged — but the get half fails on the code:
`__getattr__`'s body reads the unbound name `dt`, so reading the attribute
back raises `NameError` instead of returning the stored value. -/
theorem claim_C10_code_bug :
    pyGetAttr (pySetAttr {} "color" (PyVal.int 5)) "color" = Except.error PyError.nameError
    ∧ ¬ pyGetAttr (pySetAttr {} "color" (PyVal.int 5)) "color"
        = Except.ok (PyVal.int 5)
    ∧ (pySetAttr {} "color" (PyVal.int 5)).state = ({} : PyNode).state
    ∧ (pySetAttr {} "color" (PyVal.int 5)).deps = ({} : PyNode).deps
    ∧ (pySetAttr {} "color" (PyVal.int 5)).revdeps = ({} : PyNode).revdeps
    ∧ (pySetAttr {} "color" (PyVal.int 5)).partner = ({} : PyNode).partner
    ∧ (pySetAttr {} "color" (PyVal.int 5)).preHook = ({} : PyNode).preHook
    ∧ (pySetAttr {} "color" (PyVal.int 5)).postHook = ({} : PyNode).postHook
    ∧ (pySetAttr {} "color" (PyVal.int 5)).attrs = [("color", PyVal.int 5)] := by
  refine ⟨rfl, fun h => Except.noConfusion h, ?_, ?_, ?_, ?_, ?_, ?_, ?_⟩ <;> decide

/-! ## The fixture chain (claim C8) -/

theorem insertId_mem_self (x : Nat) (l : List Nat) : x ∈ insertId x l := by
  unfold insertId
  split_ifs with h
  · exact h
  · exact List.mem_append_right l (by simp)

theorem insertId_mem_of_mem {y : Nat} (x : Nat) {l : List Nat} (h : y ∈ l) : y ∈ insertId x l := by
  unfold insertId
  split_ifs
  · exact h
  · exact List.mem_append_left _ h

theorem addDepEdge_deps (w : World) (i d j : Nat) :
    ((addDepEdge w i d).nodes j).deps
      = if j = i then insertId d (w.nodes j).deps else (w.nodes j).deps := by
  simp only [addDepEdge]
  split_ifs <;> rfl

theorem addDepEdge_partner (w : World) (i d j : Nat) :
    ((addDepEdge w i d).nodes j).partner = (w.nodes j).partner := by
  simp only [addDepEdge]
  split_ifs <;> rfl

theorem addDepEdge_deps_mono {w : World} {a b : Nat} (i d : Nat)
    (h : a ∈ (w.nodes b).deps) : a ∈ ((addDepEdge w i d).nodes b).deps := by
  rw [addDepEdge_deps]
  split_ifs
  · exact insertId_mem_of_mem d h
  · exact h

theorem dependsOn_deps_mono {w : World} {a b : Nat} (ds : List Nat) (i : Nat)
    (h : a ∈ (w.nodes b).deps) : a ∈ ((dependsOn w ds i).nodes b).deps := by
  induction ds generalizing w with
  | nil => exact h
  | cons d rest ih => exact ih (addDepEdge_deps_mono i d h)

theorem dependsOn_mem (w : World) (ds : List Nat) (i : Nat) :
    ∀ d ∈ ds, d ∈ ((dependsOn w ds i).nodes i).deps := by
  induction ds generalizing w with
  | nil => intro d hd; cases hd
  | cons x rest ih =>
    intro d hd
    rcases List.mem_cons.mp hd with he | hr
    · subst he
      refine dependsOn_deps_mono rest i ?_
      rw [addDepEdge_deps]
      simp only [if_pos rfl, if_true]
      exact insertId_mem_self d _
    · exact ih (addDepEdge w i x) d hr

theorem dependsOn_partner (w : World) (ds : List Nat) (i j : Nat) :
    ((dependsOn w ds i).nodes j).partner = (w.nodes j).partner := by
  induction ds generalizing w with
  | nil => rfl
  | cons x rest ih =>
    show ((dependsOn (addDepEdge w i x) rest i).nodes j).partner = _
    rw [ih, addDepEdge_partner]

theorem setPartnerOp_partner_self (w : World) (t p : Nat) :
    ((setPartnerOp w t (some p)).nodes t).partner = some p := by
  simp [setPartnerOp]

theorem setPartnerOp_partner_other (w : World) (t : Nat) (s : Option Nat) (j : Nat)
    (h : ¬ j = t) : ((setPartnerOp w t s).nodes j).partner = (w.nodes j).partner := by
  cases s with
  | none => rfl
  | some p => simp [setPartnerOp, h, addDepEdge_partner]

theorem chainSetups_partner (l : List Nat) (acc : List Nat) (w : World) (j : Nat) :
    ((chainSetups w acc l).nodes j).partner = (w.nodes j).partner := by
  induction l generalizing w acc with
  | nil => rfl
  | cons s rest ih =>
    show ((chainSetups (dependsOn w acc s) (acc ++ [s]) rest).nodes j).partner = _
    rw [ih, dependsOn_partner]

theorem chainTeardowns_partner (l : List Nat) (w : World) (j : Nat) :
    ((chainTeardowns w l).nodes j).partner = (w.nodes j).partner := by
  induction l generalizing w with
  | nil => rfl
  | cons t rest ih =>
    show ((chainTeardowns (dependsOn w rest t) rest).nodes j).partner = _
    rw [ih, dependsOn_partner]

theorem chainSetups_deps_mono {a b : Nat} (l acc : List Nat) (w : World)
    (h : a ∈ (w.nodes b).deps) : a ∈ ((chainSetups w acc l).nodes b).deps := by
  induction l generalizing w acc with
  | nil => exact h
  | cons s rest ih => exact ih _ _ (dependsOn_deps_mono acc s h)

theorem chainTeardowns_deps_mono {a b : Nat} (l : List Nat) (w : World)
    (h : a ∈ (w.nodes b).deps) : a ∈ ((chainTeardowns w l).nodes b).deps := by
  induction l generalizing w with
  | nil => exact h
  | cons t rest ih => exact ih _ (dependsOn_deps_mono rest t h)

theorem chainSetups_spec (l : List Nat) : ∀ (acc : List Nat) (w : World),
    (∀ x ∈ acc, ∀ b ∈ l, x ∈ ((chainSetups w acc l).nodes b).deps)
    ∧ l.Pairwise (fun x b => x ∈ ((chainSetups w acc l).nodes b).deps) := by
  induction l with
  | nil =>
    intro acc w
    exact ⟨fun x _ b hb => absurd hb (List.not_mem_nil b), List.Pairwise.nil⟩
  | cons s rest ih =>
    intro acc w
    have hstep := ih (acc ++ [s]) (dependsOn w acc s)
    constructor
    · intro x hx b hb
      rcases List.mem_cons.mp hb with he | hb2
      · subst he
        exact chainSetups_deps_mono rest (acc ++ [b]) _ (dependsOn_mem w acc b x hx)
      · exact hstep.1 x (List.mem_append_left _ hx) b hb2
    · refine List.Pairwise.cons ?_ hstep.2
      intro b hb
      exact hstep.1 s (List.mem_append_right _ (by simp)) b hb

theorem chainTeardowns_spec (l : List Nat) : ∀ (w : World),
    l.Pairwise (fun x b => b ∈ ((chainTeardowns w l).nodes x).deps) := by
  induction l with
  | nil => intro w; exact List.Pairwise.nil
  | cons t rest ih =>
    intro w
    refine List.Pairwise.cons ?_ (ih _)
    intro b hb
    exact chainTeardowns_deps_mono rest _ (dependsOn_mem w rest t b hb)

theorem collectLevels_lists (levels : List Level) (w : World) :
    (collectLevels levels w).2.1 = levels.filterMap Level.setUp
    ∧ (collectLevels levels w).2.2 = levels.filterMap Level.tearDown := by
  induction levels generalizing w with
  | nil => exact ⟨rfl, rfl⟩
  | cons lv rest ih =>
    cases hsu : lv.setUp <;> cases htd : lv.tearDown <;>
      simp [collectLevels, hsu, htd, List.filterMap_cons, (ih _).1, (ih _).2]

theorem collectLevels_partner_preserved (levels : List Level) (w : World) (t : Nat)
    (h : t ∉ levels.filterMap Level.tearDown) :
    (((collectLevels levels w).1).nodes t).partner = (w.nodes t).partner := by
  induction levels generalizing w with
  | nil => rfl
  | cons lv rest ih =>
    cases htd : lv.tearDown with
    | none =>
      have hrest : t ∉ rest.filterMap Level.tearDown := by
        simpa [List.filterMap_cons, htd] using h
      have hw : (collectLevels (lv :: rest) w).1 = (collectLevels rest w).1 := by
        simp [collectLevels, htd]
      rw [hw]
      exact ih w hrest
    | some t0 =>
      have h2 : ¬ t = t0 ∧ t ∉ rest.filterMap Level.tearDown := by
        simpa [List.filterMap_cons, htd] using h
      have hw : (collectLevels (lv :: rest) w).1
          = (collectLevels rest (setPartnerOp w t0 lv.setUp)).1 := by
        simp [collectLevels, htd]
      rw [hw, ih _ h2.2, setPartnerOp_partner_other w t0 _ t h2.1]

theorem collectLevels_partner (levels : List Level) (w : World)
    (hnd : (levels.filterMap Level.tearDown).Nodup)
    (hfresh : ∀ t ∈ levels.filterMap Level.tearDown, (w.nodes t).partner = none) :
    ∀ lv ∈ levels, ∀ t, lv.tearDown = some t →
      (((collectLevels levels w).1).nodes t).partner = lv.setUp := by
  induction levels generalizing w with
  | nil => intro lv h; cases h
  | cons lv0 rest ih =>
    intro lv hlv t ht
    rcases List.mem_cons.mp hlv with he | hr
    · subst he
      have hlist : (lv :: rest).filterMap Level.tearDown
          = t :: rest.filterMap Level.tearDown := by
        simp [List.filterMap_cons, ht]
      have hnotin : t ∉ rest.filterMap Level.tearDown := by
        rw [hlist] at hnd
        exact (List.nodup_cons.mp hnd).1
      have hw : (collectLevels (lv :: rest) w).1
          = (collectLevels rest (setPartnerOp w t lv.setUp)).1 := by
        simp [collectLevels, ht]
      rw [hw, collectLevels_partner_preserved rest _ t hnotin]
      cases hsu : lv.setUp with
      | none =>
        show (w.nodes t).partner = none
        exact hfresh t (by rw [hlist]; simp)
      | some p => exact setPartnerOp_partner_self w t p
    · cases htd0 : lv0.tearDown with
      | none =>
        have hnd2 : (rest.filterMap Level.tearDown).Nodup := by
          simpa [List.filterMap_cons, htd0] using hnd
        have hfresh2 : ∀ t2 ∈ rest.filterMap Level.tearDown, (w.nodes t2).partner = none := by
          intro t2 hm
          exact hfresh t2 (by simp [List.filterMap_cons, htd0, hm])
        have hw : (collectLevels (lv0 :: rest) w).1 = (collectLevels rest w).1 := by
          simp [collectLevels, htd0]
        rw [hw]
        exact ih w hnd2 hfresh2 lv hr t ht
      | some t0 =>
        have hlist : (lv0 :: rest).filterMap Level.tearDown
            = t0 :: rest.filterMap Level.tearDown := by
          simp [List.filterMap_cons, htd0]
        rw [hlist] at hnd
        have hnd2 := (List.nodup_cons.mp hnd).2
        have ht0notin := (List.nodup_cons.mp hnd).1
        have hfresh2 : ∀ t2 ∈ rest.filterMap Level.tearDown,
            ((setPartnerOp w t0 lv0.setUp).nodes t2).partner = none := by
          intro t2 hm
          have hne : ¬ t2 = t0 := fun hc => ht0notin (hc ▸ hm)
          rw [setPartnerOp_partner_other w t0 _ t2 hne]
          exact hfresh t2 (by rw [hlist]; exact List.mem_cons_of_mem _ hm)
        have hw : (collectLevels (lv0 :: rest) w).1
            = (collectLevels rest (setPartnerOp w t0 lv0.setUp)).1 := by
          simp [collectLevels, htd0]
        rw [hw]
        exact ih _ hnd2 hfresh2 lv hr t ht

/-- C8.  For a nesting hierarchy of levels, `_mod_fixtures` wires the
present set-up fixtures so that each depends on every earlier (outer) one,
wires the present teardown fixtures so that each depends on every later
(inner) one, and sets each teardown's partner to its own level's set-up when
that level has one, leaving the partner absent otherwise.  The hypotheses
say the teardown fixtures are distinct nodes whose partner pointer is still
unset, as is the case for freshly constructed fixtures. -/
theorem claim_C8 (levels : List Level) (w : World)
    (hnd : (levels.filterMap Level.tearDown).Nodup)
    (hfresh : ∀ t ∈ levels.filterMap Level.tearDown, (w.nodes t).partner = none) :
    (levels.filterMap Level.setUp).Pairwise
      (fun a b => a ∈ (((modFixtures levels w).1).nodes b).deps)
    ∧ (levels.filterMap Level.tearDown).Pairwise
      (fun a b => b ∈ (((modFixtures levels w).1).nodes a).deps)
    ∧ (∀ lv ∈ levels, ∀ t, lv.tearDown = some t →
        (((modFixtures levels w).1).nodes t).partner = lv.setUp) := by
  have hl := collectLevels_lists levels w
  refine ⟨?_, ?_, ?_⟩
  · have hs : ((collectLevels levels w).2.1).Pairwise
        (fun x b => x ∈ ((chainSetups (collectLevels levels w).1 []
          ((collectLevels levels w).2.1)).nodes b).deps) :=
      (chainSetups_spec _ [] _).2
    have hs2 : ((collectLevels levels w).2.1).Pairwise
        (fun x b => x ∈ (((modFixtures levels w).1).nodes b).deps) :=
      hs.imp fun hxb => chainTeardowns_deps_mono _ _ hxb
    rw [hl.1] at hs2
    exact hs2
  · have ht : ((collectLevels levels w).2.2).Pairwise
        (fun a b => b ∈ (((modFixtures levels w).1).nodes a).deps) :=
      chainTeardowns_spec _ _
    rw [hl.2] at ht
    exact ht
  · intro lv hlv t htd
    have hp := collectLevels_partner levels w hnd hfresh lv hlv t htd
    have hpr : (((modFixtures levels w).1).nodes t).partner
        = (((collectLevels levels w).1).nodes t).partner := by
      show ((chainTeardowns (chainSetups (collectLevels levels w).1 []
          ((collectLevels levels w).2.1)) ((collectLevels levels w).2.2)).nodes t).partner = _
      rw [chainTeardowns_partner, chainSetups_partner]
    rw [hpr]
    exact hp

/-- A two-level hierarchy: package level with set-up 0 and teardown 1, module
level with set-up 2 and teardown 3. -/
def levelsC8 : List Level :=
  [{ setUp := some 0, tearDown := some 1 }, { setUp := some 2, tearDown := some 3 }]

/-- Four freshly constructed fixture nodes. -/
def wC8 : World := { nodes := fun _ => { isFixture := true }, log := [] }

/-- C8 witness: on the two-level hierarchy, the inner set-up depends on the
outer one, the outer teardown depends on the inner one, and each teardown is
partnered with its own level's set-up. -/
theorem claim_C8_witness :
    ([0, 2] : List Nat).Pairwise
      (fun a b => a ∈ (((modFixtures levelsC8 wC8).1).nodes b).deps)
    ∧ ([1, 3] : List Nat).Pairwise
      (fun a b => b ∈ (((modFixtures levelsC8 wC8).1).nodes a).deps)
    ∧ (∀ lv ∈ levelsC8, ∀ t, lv.tearDown = some t →
        (((modFixtures levelsC8 wC8).1).nodes t).partner = lv.setUp) :=
  claim_C8 levelsC8 wC8 (by decide) (by decide)

end DtestModel
